import Mathlib

/-!
Verification of the real-time connection manager of the `trySamm/frontend`
repository, a shallow embedding of `src/lib/websocket.ts` (the
`WebSocketService` class) and of the cache-bridge handlers in
`src/hooks/useWebSocket.ts`.

The embedding follows the TypeScript source line by line:

* `WebSocketState`, `WebSocketConfig` mirror `src/types/websocket.ts`
  (`Date` values become abstract `Nat` timestamps, `Error` values become
  their message strings).
* The mutable fields of the `WebSocketService` class become the `Service`
  structure; the timer handles become presence information (for the one-shot
  reconnect timer we also record the `attempts` value captured by the
  `setTimeout` closure in `scheduleReconnect`).  Because `sendPing` assigns
  `this.pongTimer = setTimeout(...)` without clearing a pending timer, the
  field `this.pongTimer` and the set of live pong-wait timers can diverge:
  the model keeps `pongStored` (the stored handle refers to a live timer)
  and `pongOrphans` (live pong-wait timers whose handle was overwritten and
  which no `clearTimeout` in the class can ever reach).
* Each private method of the class becomes a function `Service → Service`.
* External stimuli (public method calls, socket callbacks, timer firings)
  become an event type `Ev` with a total transition function `step`; an
  event whose JavaScript trigger cannot occur in a given service state
  (e.g. the `onopen` callback when no socket exists) leaves the state
  unchanged.
* `scheduledReconnects` is an instrumentation counter, incremented exactly
  when `scheduleReconnect` runs, so that "how many reconnect attempts were
  scheduled" is observable in the model.
-/

namespace WS

/-- Model of `WebSocketStatus` from `src/types/websocket.ts`:
`'connecting' | 'connected' | 'disconnected' | 'error'`. -/
inductive WebSocketStatus
  | connecting
  | connected
  | disconnected
  | error
deriving DecidableEq, Repr

/-- Model of `WebSocketState` from `src/types/websocket.ts`.  `lastConnected : Date | null`
is modelled as an abstract timestamp, `lastError : Error | null` by the error
message. -/
structure WebSocketState where
  status : WebSocketStatus
  lastConnected : Option Nat
  lastError : Option String
  reconnectAttempts : Nat
deriving DecidableEq, Repr

/-- The `reconnect` section of `WebSocketConfig`. -/
structure ReconnectConfig where
  enabled : Bool
  maxAttempts : Nat
  initialDelay : Nat
  maxDelay : Nat
deriving DecidableEq, Repr

/-- The `heartbeat` section of `WebSocketConfig`. -/
structure HeartbeatConfig where
  enabled : Bool
  interval : Nat
  timeout : Nat
deriving DecidableEq, Repr

/-- Model of `WebSocketConfig` (the `url` field plays no role in the state machine). -/
structure WebSocketConfig where
  reconnect : ReconnectConfig
  heartbeat : HeartbeatConfig
deriving DecidableEq, Repr

/-- Model of `DEFAULT_CONFIG` from `src/lib/websocket.ts`. -/
def DEFAULT_CONFIG : WebSocketConfig :=
  { reconnect := { enabled := true, maxAttempts := 5, initialDelay := 1000, maxDelay := 30000 }
    heartbeat := { enabled := true, interval := 30000, timeout := 10000 } }

/-- The `readyState` of a browser `WebSocket`. -/
inductive ReadyState
  | CONNECTING
  | OPEN
  | CLOSING
  | CLOSED
deriving DecidableEq, Repr

/-- The mutable fields of the `WebSocketService` class.
`socket = none` models `this.socket === null`; `socket = some rs` a live
handle with `readyState = rs`.  `reconnectTimer = some a` models a pending
`setTimeout` whose closure captured `attempts = a`.  `heartbeatTimer`
records whether the interval timer is armed.  `pongStored` records whether
`this.pongTimer` currently holds the handle of a live pong-wait timer;
`pongOrphans` counts live pong-wait timers whose handle was overwritten by a
later `sendPing` (the class holds no reference to them, so none of its
`clearTimeout` calls can cancel them, but each still fires `reconnect()`).
`scheduledReconnects` instruments the number of `scheduleReconnect`
invocations. -/
structure Service where
  socket : Option ReadyState
  state : WebSocketState
  reconnectTimer : Option Nat
  heartbeatTimer : Bool
  pongStored : Bool
  pongOrphans : Nat
  scheduledReconnects : Nat
deriving DecidableEq, Repr

/-- The initial field values of a freshly constructed `WebSocketService`. -/
def Service.initial : Service :=
  { socket := none
    state := { status := .disconnected, lastConnected := none, lastError := none,
               reconnectAttempts := 0 }
    reconnectTimer := none
    heartbeatTimer := false
    pongStored := false
    pongOrphans := 0
    scheduledReconnects := 0 }

/-- Model of `stopHeartbeat`: clears the heartbeat interval and the stored
pong timeout (`clearTimeout(this.pongTimer)`); an orphaned pong-wait timer
has no stored handle, so it is out of reach. -/
def stopHeartbeat (s : Service) : Service :=
  { s with heartbeatTimer := false, pongStored := false }

/-- Model of `clearTimers`: `stopHeartbeat` plus clearing the reconnect timer. -/
def clearTimers (s : Service) : Service :=
  { stopHeartbeat s with reconnectTimer := none }

/-- Model of `startHeartbeat`: when heartbeat is enabled, (re)arm the interval timer. -/
def startHeartbeat (cfg : WebSocketConfig) (s : Service) : Service :=
  if cfg.heartbeat.enabled then { stopHeartbeat s with heartbeatTimer := true } else s

/-- Model of `connect()`.  `hasToken` models whether `useAuthStore` currently holds an
`accessToken`; `ctorOk` models whether `new WebSocket(url)` succeeds or throws
synchronously (on a throw, `this.socket` keeps its previous value). -/
def connect (hasToken ctorOk : Bool) (s : Service) : Service :=
  if s.socket = some .OPEN then s
  else if s.socket = some .CONNECTING then s
  else if ¬hasToken then
    { s with state := { s.state with status := .error, lastError := some "No access token" } }
  else
    let s1 : Service :=
      { s with state := { s.state with status := .connecting } }
    if ctorOk then
      { s1 with socket := some .CONNECTING }
    else
      { s1 with state :=
          { s1.state with status := .error, lastError := some "Connection failed" } }

/-- Model of `disconnect()`: clear all timers, detach handlers and close and drop the
socket, then set `status = disconnected`, `reconnectAttempts = 0`. -/
def disconnect (s : Service) : Service :=
  let s1 := clearTimers s
  let s2 : Service :=
    match s1.socket with
    | some _ => { s1 with socket := none }
    | none => s1
  { s2 with state := { s2.state with status := .disconnected, reconnectAttempts := 0 } }

/-- Model of `handleOpen()`: mark connected (clearing `lastError`, zeroing the attempt
counter, recording the time) and start the heartbeat. -/
def handleOpen (cfg : WebSocketConfig) (now : Nat) (s : Service) : Service :=
  startHeartbeat cfg
    { s with state := { status := .connected, lastConnected := some now,
                        lastError := none, reconnectAttempts := 0 } }

/-- Model of `scheduleReconnect()`: arm the reconnect timer; the `setTimeout` closure
captures the current `this.state.reconnectAttempts`. -/
def scheduleReconnect (s : Service) : Service :=
  { s with reconnectTimer := some s.state.reconnectAttempts,
           scheduledReconnects := s.scheduledReconnects + 1 }

/-- Model of `handleClose(event)`: clear timers, decide retry from the close code, the
`reconnect` config and the attempt counter, set `status = disconnected`, and
schedule a reconnect when the decision was positive. -/
def handleClose (cfg : WebSocketConfig) (code : Nat) (s : Service) : Service :=
  let s1 := clearTimers s
  let shouldReconnect : Bool :=
    cfg.reconnect.enabled && code ≠ 1000 && code ≠ 4001 && code ≠ 4003 &&
      decide (s1.state.reconnectAttempts < cfg.reconnect.maxAttempts)
  let s2 : Service := { s1 with state := { s1.state with status := .disconnected } }
  if shouldReconnect then scheduleReconnect s2 else s2

/-- Model of `handleError(event)`: record the failure. -/
def handleError (s : Service) : Service :=
  { s with state := { s.state with status := .error, lastError := some "WebSocket error" } }

/-- Model of `sendPing()`: when the socket is open, send a ping and assign
`this.pongTimer = setTimeout(...)` — arming a fresh pong-wait timer and
storing its handle.  The assignment does not clear a previously stored
timer, so a still-live one is orphaned (the `send` itself does not change
the service fields). -/
def sendPing (s : Service) : Service :=
  if s.socket = some .OPEN then
    { s with pongStored := true,
             pongOrphans := s.pongOrphans + (if s.pongStored then 1 else 0) }
  else s

/-- Model of `handlePong()`: cancel the stored pong-wait timer. -/
def handlePong (s : Service) : Service :=
  { s with pongStored := false }

/-- The effect of `handleMessage` on the service fields: a frame that parses
to `system.pong` cancels the pong timer; domain frames are dispatched to
subscribers (which does not touch the connection fields); a parse failure is
dropped.  `parsed = none` models a JSON parse failure, otherwise the frame's
`type` string. -/
def handleMessageConn (parsed : Option String) (s : Service) : Service :=
  match parsed with
  | none => s
  | some t => if t = "system.pong" then handlePong s else s

/-- External stimuli of one `WebSocketService` instance: public method calls,
socket callbacks and timer firings.  `hasToken`/`ctorOk` parameters carry the
environment at the moment `connect()` runs. -/
inductive Ev
  | connectCall (hasToken ctorOk : Bool)
  | disconnectCall
  | reconnectCall (hasToken ctorOk : Bool)
  | sockOpen (now : Nat)
  | sockClose (code : Nat)
  | sockError
  | sockMessage (parsed : Option String)
  | reconnectFire (hasToken ctorOk : Bool)
  | heartbeatTick
  | pongTimeout (hasToken ctorOk : Bool)
  | pongOrphanFire (hasToken ctorOk : Bool)
deriving DecidableEq, Repr

/-- Events that are explicit calls into the service by its owner, as opposed
to socket callbacks and timer firings generated by the machine itself. -/
def Ev.isCallerInitiated : Ev → Bool
  | .connectCall _ _ => true
  | .reconnectCall _ _ => true
  | .disconnectCall => true
  | _ => false

/-- Events that (re-)establish a connection on the caller's explicit request:
`connect()` and `reconnect()`. -/
def Ev.isConnectRequest : Ev → Bool
  | .connectCall _ _ => true
  | .reconnectCall _ _ => true
  | _ => false

/-- One step of the service.  Socket callbacks only fire on a live socket in
the appropriate ready state (a socket whose handlers were detached by
`disconnect` is gone from the model, since `disconnect` also nulls
`this.socket`); timer callbacks only fire while armed, and firing disarms a
one-shot timer.  An event whose trigger is impossible leaves the state
unchanged. -/
def step (cfg : WebSocketConfig) (s : Service) (e : Ev) : Service :=
  match e with
  | .connectCall hasToken ctorOk => connect hasToken ctorOk s
  | .disconnectCall => disconnect s
  | .reconnectCall hasToken ctorOk => connect hasToken ctorOk (disconnect s)
  | .sockOpen now =>
    if s.socket = some .CONNECTING then handleOpen cfg now { s with socket := some .OPEN }
    else s
  | .sockClose code =>
    match s.socket with
    | some rs =>
      if rs = .CLOSED then s else handleClose cfg code { s with socket := some .CLOSED }
    | none => s
  | .sockError =>
    match s.socket with
    | some rs => if rs = .CLOSED then s else handleError s
    | none => s
  | .sockMessage parsed =>
    if s.socket = some .OPEN then handleMessageConn parsed s else s
  | .reconnectFire hasToken ctorOk =>
    match s.reconnectTimer with
    | some captured =>
      connect hasToken ctorOk
        { s with reconnectTimer := none,
                 state := { s.state with reconnectAttempts := captured + 1 } }
    | none => s
  | .heartbeatTick => if s.heartbeatTimer then sendPing s else s
  | .pongTimeout hasToken ctorOk =>
    if s.pongStored then
      connect hasToken ctorOk (disconnect { s with pongStored := false })
    else s
  | .pongOrphanFire hasToken ctorOk =>
    if 0 < s.pongOrphans then
      connect hasToken ctorOk (disconnect { s with pongOrphans := s.pongOrphans - 1 })
    else s

/-- Run a sequence of events. -/
def run (cfg : WebSocketConfig) (s : Service) (es : List Ev) : Service :=
  es.foldl (step cfg) s

/-- The service states reachable from a freshly constructed instance. -/
inductive Reachable (cfg : WebSocketConfig) : Service → Prop
  | initial : Reachable cfg Service.initial
  | step {s : Service} (e : Ev) : Reachable cfg s → Reachable cfg (step cfg s e)

/-- A service holding no socket and no live timer (stored or orphaned):
nothing internal can ever happen to it again; only a caller-initiated method
call changes it. -/
def Inert (s : Service) : Prop :=
  s.socket = none ∧ s.reconnectTimer = none ∧
    s.heartbeatTimer = false ∧ s.pongStored = false ∧ s.pongOrphans = 0

/-!
Event dispatch (`subscribe` / `dispatchEvent` / `handleMessage` of
`WebSocketService`).  A subscription's `eventType` field may be a single tag
or an array; the source normalises it to an array inside `dispatchEvent`
(`Array.isArray(...) ? ... : [...]`), so the model stores the normalised
list.  A handler is a function that either returns or throws; we model it as
`WSEvent → Except String Unit`, the `Except.error` case standing for a thrown
exception, which `dispatchEvent` catches and logs.  The `Map` iteration order
of `this.subscriptions` is insertion order, modelled as a list in
registration order.
-/

/-- A domain event as built by `handleMessage`: the `type` tag plus the merged
payload fields (abstracted into one component; the dispatch logic only ever
inspects `type`). -/
structure WSEvent where
  type : String
  payload : String
deriving DecidableEq, Repr

/-- One entry of `this.subscriptions` (`WebSocketSubscription` in
`src/types/websocket.ts`), with `eventType` already normalised to a list. -/
structure Subscription where
  id : Nat
  eventTypes : List String
  handler : WSEvent → Except String Unit

/-- Model of `dispatchEvent(event)`: walk the subscriptions in registration order,
invoke the handler of every subscription whose `eventTypes` contains the
event's `type` (recording its outcome; a thrown exception is caught so the
walk always continues), and skip the others.  The returned list records, in
order, which handlers were invoked and what each returned. -/
def dispatchEvent (subs : List Subscription) (event : WSEvent) :
    List (Nat × Except String Unit) :=
  match subs with
  | [] => []
  | sub :: rest =>
    if sub.eventTypes.contains event.type then
      (sub.id, sub.handler event) :: dispatchEvent rest event
    else
      dispatchEvent rest event

/-- The result of `JSON.parse` on an inbound frame: `malformed` when the
parse throws, otherwise the frame's `type` and payload. -/
inductive ParsedFrame
  | malformed
  | frame (type : String) (payload : String)
deriving DecidableEq, Repr

/-- Model of `handleMessage(event)` as seen by subscribers: a malformed frame is
dropped; a `system.pong` frame is routed to `handlePong` and not dispatched;
any other frame is dispatched as a domain event.  Returns whether the pong
handler ran, and the invocation record of `dispatchEvent`. -/
def handleMessage (subs : List Subscription) (p : ParsedFrame) :
    Bool × List (Nat × Except String Unit) :=
  match p with
  | .malformed => (false, [])
  | .frame t payload =>
    if t = "system.pong" then (true, [])
    else (false, dispatchEvent subs { type := t, payload := payload })

/-!
Cache bridge (`handleCallUpdate` / `handleOrderUpdate` in
`src/hooks/useWebSocket.ts`).  `Call` and `Order` are modelled by the two
fields the cache logic ever reads or that the spec's P7 scenario mentions:
the entity `id` (compared against the event's entity) and a `status`
component standing for the rest of the record (`src/types/call.ts` and
`src/types/order.ts`); the handlers never inspect other entity fields.
The query-cache entries touched by the handlers are, for one tenant:
the list cache (`callsKeys.list` / `ordersKeys.list`), the per-id detail
cache (`callsKeys.detail` / `ordersKeys.detail`), and for calls the stats
cache (`callsKeys.stats`), for which only freshness matters.
`setQueryData` with an updater that receives `undefined` and returns it
leaves the cache entry absent, matching the `if (!old) return old` branches.
-/

/-- Abstraction of `Call` (`src/types/call.ts`): the `id` used by the cache
bridge plus one representative data field. -/
structure Call where
  id : String
  status : String
deriving DecidableEq, Repr

/-- Abstraction of `Order` (`src/types/order.ts`). -/
structure Order where
  id : String
  status : String
deriving DecidableEq, Repr

/-- Model of `CallEventType`: `'call.started' | 'call.updated' | 'call.ended'`. -/
inductive CallEventType
  | started
  | updated
  | ended
deriving DecidableEq, Repr

/-- Model of `CallUpdateEvent` from `src/types/websocket.ts`. -/
structure CallUpdateEvent where
  type : CallEventType
  call : Call
deriving DecidableEq, Repr

/-- Model of `OrderEventType`: `'order.created' | 'order.updated' | 'order.cancelled'`. -/
inductive OrderEventType
  | created
  | updated
  | cancelled
deriving DecidableEq, Repr

/-- Model of `OrderUpdateEvent` from `src/types/websocket.ts`. -/
structure OrderUpdateEvent where
  type : OrderEventType
  order : Order
deriving DecidableEq, Repr

/-- The call-related query-cache entries for the active tenant. -/
structure CallsCache where
  list : Option (List Call)
  detail : String → Option Call
  statsFresh : Bool

/-- The order-related query-cache entries for the active tenant. -/
structure OrdersCache where
  list : Option (List Order)
  detail : String → Option Order

/-- Model of `handleCallUpdate(queryClient, tenantId, event)`. -/
def handleCallUpdate (cache : CallsCache) (event : CallUpdateEvent) : CallsCache :=
  match event.type with
  | .started | .updated =>
    let newList : Option (List Call) :=
      match cache.list with
      | none => some [event.call]
      | some oldCalls =>
        match oldCalls.findIdx? (fun c => c.id = event.call.id) with
        | some index => some (oldCalls.set index event.call)
        | none =>
          if event.type = .started then some (event.call :: oldCalls) else some oldCalls
    { cache with
      list := newList
      detail := fun i => if i = event.call.id then some event.call else cache.detail i }
  | .ended =>
    { cache with
      list := cache.list.map (fun oldCalls =>
        oldCalls.map (fun c => if c.id = event.call.id then event.call else c))
      detail := fun i => if i = event.call.id then some event.call else cache.detail i
      statsFresh := false }

/-- Model of `handleOrderUpdate(queryClient, tenantId, event)`. -/
def handleOrderUpdate (cache : OrdersCache) (event : OrderUpdateEvent) : OrdersCache :=
  match event.type with
  | .created =>
    { cache with
      list :=
        match cache.list with
        | none => some [event.order]
        | some oldOrders => some (event.order :: oldOrders) }
  | .updated | .cancelled =>
    { cache with
      list := cache.list.map (fun oldOrders =>
        oldOrders.map (fun o => if o.id = event.order.id then event.order else o))
      detail := fun i => if i = event.order.id then some event.order else cache.detail i }

/-- Modelled from the spec (§4.6 upsert rule): replace, in place and
preserving list order, every entity whose id equals the incoming entity's id.
Used to compare the source's list mutations against the spec's wording. -/
def replaceById {α : Type} (getId : α → String) (l : List α) (x : α) : List α :=
  l.map (fun y => if getId y = getId x then x else y)

/-!
Reconnect delay (`scheduleReconnect` arithmetic).  JavaScript numbers are
modelled as rationals; `Math.random()` becomes a parameter `r` with
`0 ≤ r < 1` (the theorems assume the slightly weaker `0 ≤ r ≤ 1`).
-/

/-- Model of `Math.min(initialDelay * Math.pow(2, attempts), maxDelay)`. -/
def reconnectDelayBase (initialDelay maxDelay : ℚ) (attempts : Nat) : ℚ :=
  min (initialDelay * 2 ^ attempts) maxDelay

/-- Model of `delay + delay * 0.2 * Math.random()`: the scheduled total delay. -/
def reconnectTotalDelay (initialDelay maxDelay : ℚ) (attempts : Nat) (r : ℚ) : ℚ :=
  let delay := reconnectDelayBase initialDelay maxDelay attempts
  let jitter := delay * (1 / 5) * r
  delay + jitter

/-!
Concrete fixtures used by scenario runs, counterexamples and witnesses.
-/

/-- The configuration of the spec's Scenario A:
`maxAttempts = 2, initialDelayMs = 100, maxDelayMs = 1000`. -/
def scenarioConfig : WebSocketConfig :=
  { reconnect := { enabled := true, maxAttempts := 2, initialDelay := 100, maxDelay := 1000 }
    heartbeat := DEFAULT_CONFIG.heartbeat }

/-- Scenario A: connect, open, then three consecutive unexpected closes
(code 1006), each scheduled retry firing and failing again. -/
def scenarioTrace : List Ev :=
  [.connectCall true true, .sockOpen 0, .sockClose 1006,
   .reconnectFire true true, .sockClose 1006,
   .reconnectFire true true, .sockClose 1006]

/-- A run in which an unexpected close schedules a reconnect timer, the
caller then reconnects manually, the new socket opens, and only afterwards
the stale reconnect timer fires. -/
def staleTimerTrace : List Ev :=
  [.connectCall true true, .sockOpen 0, .sockClose 1006,
   .connectCall true true, .sockOpen 1, .reconnectFire true true]

/-- A service whose retry budget under `scenarioConfig` is exhausted. -/
def exhaustedService : Service :=
  { socket := some .CONNECTING
    state := { status := .connecting, lastConnected := some 0, lastError := none,
               reconnectAttempts := 2 }
    reconnectTimer := none
    heartbeatTimer := false
    pongStored := false
    pongOrphans := 0
    scheduledReconnects := 2 }

/-- A heartbeat configuration whose interval is shorter than its pong
timeout, so a second ping can be sent while the previous pong-wait timer is
still pending. -/
def leakConfig : WebSocketConfig :=
  { reconnect := DEFAULT_CONFIG.reconnect
    heartbeat := { enabled := true, interval := 5000, timeout := 10000 } }

/-- Connect, open, two heartbeat ticks with no pong in between (the second
`sendPing` overwrites the stored pong-wait handle, orphaning the first live
timer), then `disconnect()`. -/
def leakTrace : List Ev :=
  [.connectCall true true, .sockOpen 0, .heartbeatTick, .heartbeatTick,
   .disconnectCall]

/-- The state after `new WebSocket(url)` throws synchronously on a fresh
service with a token available. -/
def errorService : Service :=
  connect true false Service.initial

/-- The state after a clean connect-and-open under the default config. -/
def connectedService : Service :=
  run DEFAULT_CONFIG Service.initial [.connectCall true true, .sockOpen 0]

/-- Three subscriptions: two matching `order.updated` (ids 1 and 2, in
registration order) and one matching only `order.created` (id 3). -/
def subsFixture : List Subscription :=
  [ { id := 1, eventTypes := ["order.updated", "order.created"], handler := fun _ => .ok () }
  , { id := 2, eventTypes := ["order.updated"], handler := fun _ => .error "boom" }
  , { id := 3, eventTypes := ["order.created"], handler := fun _ => .ok () } ]

/-- A cached order list already holding an order with id `a`. -/
def ordersCacheFixture : OrdersCache :=
  { list := some [{ id := "a", status := "pending" }], detail := fun _ => none }

/-- An order cache that never loaded anything. -/
def emptyOrdersCache : OrdersCache :=
  { list := none, detail := fun _ => none }

/-- An `order.created` event whose order id `a` is already cached. -/
def orderCreatedDup : OrderUpdateEvent :=
  { type := .created, order := { id := "a", status := "confirmed" } }

/-- A cached call list `[a, b]` as in the spec's P7 scenario. -/
def callsCacheFixture : CallsCache :=
  { list := some [{ id := "a", status := "queued" }, { id := "b", status := "queued" }]
    detail := fun _ => none
    statsFresh := true }

/-- A `call.updated` event for the already-cached call `a`. -/
def callUpdatedA : CallUpdateEvent :=
  { type := .updated, call := { id := "a", status := "confirmed" } }

/-- An `order.updated` event for the already-cached order `a`. -/
def orderUpdatedA : OrderUpdateEvent :=
  { type := .updated, order := { id := "a", status := "confirmed" } }

/-!
Theorems.
-/

/-- Everything produced by `run` from the initial state is reachable. -/
theorem reachable_run (cfg : WebSocketConfig) (es : List Ev) :
    Reachable cfg (run cfg Service.initial es) := by
  suffices h : ∀ s, Reachable cfg s → Reachable cfg (run cfg s es) from
    h _ Reachable.initial
  induction es with
  | nil => intro s hs; exact hs
  | cons e es ih =>
    intro s hs
    exact ih _ (Reachable.step e hs)

/-- Invoked-handler ids of one dispatch are exactly the ids of the matching
subscriptions, in registration order. -/
theorem dispatchEvent_ids (subs : List Subscription) (event : WSEvent) :
    (dispatchEvent subs event).map Prod.fst =
      (subs.filter fun sub => sub.eventTypes.contains event.type).map Subscription.id := by
  induction subs with
  | nil => rfl
  | cons sub rest ih =>
    by_cases h : event.type ∈ sub.eventTypes <;>
      simp [dispatchEvent, h, List.filter_cons, ih]

/-- Dispatch distributes over concatenation of the subscription list. -/
theorem dispatchEvent_append (l₁ l₂ : List Subscription) (event : WSEvent) :
    dispatchEvent (l₁ ++ l₂) event = dispatchEvent l₁ event ++ dispatchEvent l₂ event := by
  induction l₁ with
  | nil => rfl
  | cons sub rest ih =>
    by_cases h : event.type ∈ sub.eventTypes <;>
      simp [dispatchEvent, h, ih]

/-- After `disconnect` no socket handle remains. -/
theorem disconnect_socket (s : Service) : (disconnect s).socket = none := by
  cases s with
  | mk o st rt hb ps po sc => cases o <;> rfl

/-- After `disconnect` the reconnect timer is cancelled. -/
theorem disconnect_reconnectTimer (s : Service) : (disconnect s).reconnectTimer = none := by
  cases s with
  | mk o st rt hb ps po sc => cases o <;> rfl

/-- After `disconnect` the heartbeat interval timer is cancelled. -/
theorem disconnect_heartbeatTimer (s : Service) : (disconnect s).heartbeatTimer = false := by
  cases s with
  | mk o st rt hb ps po sc => cases o <;> rfl

/-- After `disconnect` the stored pong-wait timer is cancelled. -/
theorem disconnect_pongStored (s : Service) : (disconnect s).pongStored = false := by
  cases s with
  | mk o st rt hb ps po sc => cases o <;> rfl

/-- Orphaned pong-wait timers are beyond the reach of `disconnect`: their
count is unchanged. -/
theorem disconnect_pongOrphans (s : Service) :
    (disconnect s).pongOrphans = s.pongOrphans := by
  cases s with
  | mk o st rt hb ps po sc => cases o <;> rfl

/-- Helper: `disconnect` sets status `disconnected`. -/
theorem disconnect_status (s : Service) :
    (disconnect s).state.status = .disconnected := by
  cases s with
  | mk o st rt hb ps po sc => cases o <;> rfl

/-- Helper: `disconnect` resets the attempt counter. -/
theorem disconnect_attempts (s : Service) :
    (disconnect s).state.reconnectAttempts = 0 := by
  cases s with
  | mk o st rt hb ps po sc => cases o <;> rfl

/-- Helper: `disconnect` is idempotent. -/
theorem disconnect_idem (s : Service) : disconnect (disconnect s) = disconnect s := by
  cases s with
  | mk o st rt hb ps po sc => cases o <;> rfl

/-- On a freshly disconnected service carrying no orphaned pong-wait timer,
any event that is not an explicit `connect()`/`reconnect()` call changes
nothing. -/
theorem step_disconnect_eq (cfg : WebSocketConfig) (s : Service) (e : Ev)
    (horph : s.pongOrphans = 0) (h : e.isConnectRequest = false) :
    step cfg (disconnect s) e = disconnect s := by
  cases s with
  | mk o st rt hb ps po sc =>
    cases horph
    cases e with
    | connectCall t k => simp [Ev.isConnectRequest] at h
    | reconnectCall t k => simp [Ev.isConnectRequest] at h
    | disconnectCall => cases o <;> rfl
    | sockOpen now => cases o <;> rfl
    | sockClose code => cases o <;> rfl
    | sockError => cases o <;> rfl
    | sockMessage p => cases o <;> rfl
    | reconnectFire t k => cases o <;> rfl
    | heartbeatTick => cases o <;> rfl
    | pongTimeout t k => cases o <;> rfl
    | pongOrphanFire t k => cases o <;> rfl

/-- Iterated form of `step_disconnect_eq`. -/
theorem run_disconnect_eq (cfg : WebSocketConfig) (s : Service)
    (horph : s.pongOrphans = 0) :
    ∀ es : List Ev, (∀ e ∈ es, e.isConnectRequest = false) →
      run cfg (disconnect s) es = disconnect s := by
  intro es
  induction es with
  | nil => intro _; rfl
  | cons e es ih =>
    intro h
    show run cfg (step cfg (disconnect s) e) es = disconnect s
    rw [step_disconnect_eq cfg s e horph (h e (List.mem_cons_self e es))]
    exact ih fun x hx => h x (List.mem_cons_of_mem e hx)

/-- On an inert service, any event that is not a caller-initiated method call
changes nothing. -/
theorem step_inert_eq (cfg : WebSocketConfig) (s : Service) (e : Ev)
    (hs : Inert s) (h : e.isCallerInitiated = false) : step cfg s e = s := by
  obtain ⟨h1, h2, h3, h4, h5⟩ := hs
  cases e with
  | connectCall t k => simp [Ev.isCallerInitiated] at h
  | disconnectCall => simp [Ev.isCallerInitiated] at h
  | reconnectCall t k => simp [Ev.isCallerInitiated] at h
  | sockOpen now => simp [step, h1]
  | sockClose code => simp [step, h1]
  | sockError => simp [step, h1]
  | sockMessage p => simp [step, h1]
  | reconnectFire t k => simp [step, h2]
  | heartbeatTick => simp [step, h3]
  | pongTimeout t k => simp [step, h4]
  | pongOrphanFire t k => simp [step, h5]

/-- Iterated form of `step_inert_eq`. -/
theorem run_inert_eq (cfg : WebSocketConfig) (s : Service) (hs : Inert s) :
    ∀ es : List Ev, (∀ e ∈ es, e.isCallerInitiated = false) → run cfg s es = s := by
  intro es
  induction es with
  | nil => intro _; rfl
  | cons e es ih =>
    intro h
    show run cfg (step cfg s e) es = s
    rw [step_inert_eq cfg s e hs (h e (List.mem_cons_self e es))]
    exact ih fun x hx => h x (List.mem_cons_of_mem e hx)

/-- If `connect` ends with status `connected`, it did not change the state at
all (it hit one of its two no-op guards). -/
theorem connect_state_of_connected (t k : Bool) (s : Service)
    (h : (connect t k s).state.status = .connected) :
    (connect t k s).state = s.state := by
  unfold connect at h ⊢
  split_ifs at h ⊢ <;> simp_all

/-- Helper: `handleOpen` clears `lastError`. -/
theorem handleOpen_lastError (cfg : WebSocketConfig) (now : Nat) (s : Service) :
    (handleOpen cfg now s).state.lastError = none := by
  unfold handleOpen startHeartbeat stopHeartbeat
  split <;> rfl

/-- Helper: `handleClose` always ends with status `disconnected`. -/
theorem handleClose_status (cfg : WebSocketConfig) (code : Nat) (s : Service) :
    (handleClose cfg code s).state.status = .disconnected := by
  unfold handleClose scheduleReconnect clearTimers stopHeartbeat
  dsimp only
  split <;> rfl

/-- Helper: `handleError` always ends with status `error`. -/
theorem handleError_status (s : Service) :
    (handleError s).state.status = .error := rfl

/-- Message handling never changes the connection state. -/
theorem handleMessageConn_state (parsed : Option String) (s : Service) :
    (handleMessageConn parsed s).state = s.state := by
  cases parsed with
  | none => rfl
  | some t =>
    simp only [handleMessageConn]
    split <;> rfl

/-- Helper: `sendPing` never changes the connection state. -/
theorem sendPing_state (s : Service) : (sendPing s).state = s.state := by
  unfold sendPing
  split <;> rfl

/-- Claim C10: `disconnect()` only writes the `status` and `reconnectAttempts`
components of the connection state; `lastError` and `lastConnected` are left
unchanged. -/
theorem claim_C10 (s : Service) :
    (disconnect s).state.status = .disconnected ∧
    (disconnect s).state.reconnectAttempts = 0 ∧
    (disconnect s).state.lastError = s.state.lastError ∧
    (disconnect s).state.lastConnected = s.state.lastConnected := by
  cases s with
  | mk o st rt hb ps po sc =>
    cases o <;> simp [disconnect, clearTimers, stopHeartbeat]

/-- Claim C4: for every attempt count below `maxAttempts` and every jitter
draw `r ∈ [0, 1]`, the scheduled reconnect delay lies between the capped
exponential base `min(initialDelay * 2 ^ n, maxDelay)` and `1.2` times it. -/
theorem claim_C4 (initialDelay maxDelay : ℚ) (maxAttempts n : Nat) (r : ℚ)
    (hInit : 0 ≤ initialDelay) (hMax : 0 ≤ maxDelay) (_hn : n < maxAttempts)
    (hr0 : 0 ≤ r) (hr1 : r ≤ 1) :
    reconnectDelayBase initialDelay maxDelay n ≤
      reconnectTotalDelay initialDelay maxDelay n r ∧
    reconnectTotalDelay initialDelay maxDelay n r ≤
      reconnectDelayBase initialDelay maxDelay n * (6 / 5) := by
  have hd : 0 ≤ reconnectDelayBase initialDelay maxDelay n :=
    le_min (mul_nonneg hInit (by positivity)) hMax
  unfold reconnectTotalDelay
  constructor
  · nlinarith [mul_nonneg (mul_nonneg hd (by norm_num : (0:ℚ) ≤ 1 / 5)) hr0]
  · nlinarith [mul_le_mul_of_nonneg_left hr1
      (mul_nonneg hd (by norm_num : (0:ℚ) ≤ 1 / 5))]

/-- Witness for C4 at `initialDelay = 100, maxDelay = 1000, n = 1, r = 1/2`. -/
theorem claim_C4_witness :
    reconnectDelayBase 100 1000 1 ≤ reconnectTotalDelay 100 1000 1 (1 / 2) ∧
    reconnectTotalDelay 100 1000 1 (1 / 2) ≤ reconnectDelayBase 100 1000 1 * (6 / 5) :=
  claim_C4 100 1000 2 1 (1 / 2) (by norm_num) (by norm_num) (by norm_num)
    (by norm_num) (by norm_num)

/-- Claim C7: a frame that parses to a domain event invokes exactly the
handlers of the subscriptions whose event-type set contains its type, in
registration order; a `system.pong` frame goes to the pong handler and to no
subscriber. -/
theorem claim_C7 (subs : List Subscription) (t payload : String) :
    (t ≠ "system.pong" →
      (handleMessage subs (.frame t payload)).1 = false ∧
      (handleMessage subs (.frame t payload)).2.map Prod.fst =
        (subs.filter fun sub => sub.eventTypes.contains t).map Subscription.id) ∧
    ((handleMessage subs (.frame "system.pong" payload)).1 = true ∧
      (handleMessage subs (.frame "system.pong" payload)).2 = []) := by
  constructor
  · intro h
    constructor
    · simp [handleMessage, h]
    · simp only [handleMessage, if_neg h]
      exact dispatchEvent_ids subs { type := t, payload := payload }
  · constructor <;> simp [handleMessage]

/-- Witness for C7: dispatching `order.updated` against `subsFixture` invokes
exactly ids 1 and 2 in order; a pong frame reaches no subscriber. -/
theorem claim_C7_witness :
    (handleMessage subsFixture (.frame "order.updated" "p")).1 = false ∧
    (handleMessage subsFixture (.frame "order.updated" "p")).2.map Prod.fst = [1, 2] ∧
    (handleMessage subsFixture (.frame "system.pong" "p")).1 = true ∧
    (handleMessage subsFixture (.frame "system.pong" "p")).2 = [] := by
  have h := claim_C7 subsFixture "order.updated" "p"
  refine ⟨(h.1 (by decide)).1, ?_, h.2.1, h.2.2⟩
  rw [(h.1 (by decide)).2]
  rfl

/-- Claim C8: a throwing handler is caught: dispatch of the subscribers after
it is exactly dispatch of the sublist after it, whatever the handler returned;
the invoked-id sequence never depends on handler outcomes; and message
handling leaves the connection state untouched. -/
theorem claim_C8 :
    (∀ (pre : List Subscription) (sub : Subscription) (post : List Subscription)
        (event : WSEvent),
      dispatchEvent (pre ++ sub :: post) event =
        dispatchEvent pre event ++
          ((if sub.eventTypes.contains event.type then
              [(sub.id, sub.handler event)] else []) ++
            dispatchEvent post event)) ∧
    (∀ (subs : List Subscription) (event : WSEvent),
      (dispatchEvent subs event).map Prod.fst =
        (subs.filter fun sub => sub.eventTypes.contains event.type).map Subscription.id) ∧
    (∀ (s : Service) (parsed : Option String),
      (handleMessageConn parsed s).state = s.state) := by
  refine ⟨?_, dispatchEvent_ids, ?_⟩
  · intro pre sub post event
    rw [dispatchEvent_append]
    by_cases h : event.type ∈ sub.eventTypes <;> simp [dispatchEvent, h]
  · intro s parsed
    cases parsed with
    | none => rfl
    | some t =>
      simp only [handleMessageConn]
      split <;> rfl

/-- Claim C1: once the attempt counter has reached `maxAttempts`, a close
leaves status `disconnected` and schedules nothing; and in Scenario A
(`maxAttempts = 2, initialDelayMs = 100, maxDelayMs = 1000`, three
consecutive unexpected closes) exactly 2 reconnect attempts are scheduled and
the final status is `disconnected` with no pending reconnect timer. -/
theorem claim_C1 :
    (∀ (cfg : WebSocketConfig) (code : Nat) (s : Service),
      cfg.reconnect.maxAttempts ≤ s.state.reconnectAttempts →
        (handleClose cfg code s).state.status = .disconnected ∧
        (handleClose cfg code s).reconnectTimer = none ∧
        (handleClose cfg code s).scheduledReconnects = s.scheduledReconnects) ∧
    ((run scenarioConfig Service.initial scenarioTrace).scheduledReconnects = 2 ∧
     (run scenarioConfig Service.initial scenarioTrace).state.status = .disconnected ∧
     (run scenarioConfig Service.initial scenarioTrace).reconnectTimer = none) := by
  constructor
  · intro cfg code s h
    have hlt : ¬ s.state.reconnectAttempts < cfg.reconnect.maxAttempts := Nat.not_lt.mpr h
    cases s with
    | mk o st rt hb ps po sc =>
      simp [handleClose, clearTimers, stopHeartbeat, scheduleReconnect, hlt]
  · exact ⟨by decide, by decide, by decide⟩

/-- Witness for C1 at a service whose budget under `scenarioConfig` is spent. -/
theorem claim_C1_witness :
    (handleClose scenarioConfig 1006 exhaustedService).state.status = .disconnected ∧
    (handleClose scenarioConfig 1006 exhaustedService).reconnectTimer = none ∧
    (handleClose scenarioConfig 1006 exhaustedService).scheduledReconnects =
      exhaustedService.scheduledReconnects :=
  claim_C1.1 scenarioConfig 1006 exhaustedService (by decide)

/-- Counterexample to Claim C3 as stated: under a heartbeat config with
`interval < timeout`, two ticks with no pong in between leave an orphaned
live pong-wait timer that `disconnect()` cannot cancel (`sendPing`
overwrote its stored handle without clearing it); after `disconnect()` the
status is `disconnected` with one orphan live, and the orphan firing — not
a caller-initiated event — runs `reconnect()` and moves the state to
`connecting`. -/
theorem claim_C3_counterexample :
    (run leakConfig Service.initial leakTrace).state.status = .disconnected ∧
    (run leakConfig Service.initial leakTrace).pongOrphans = 1 ∧
    Ev.isCallerInitiated (.pongOrphanFire true true) = false ∧
    (step leakConfig (run leakConfig Service.initial leakTrace)
        (.pongOrphanFire true true)).state.status = .connecting :=
  ⟨by decide, by decide, rfl, by decide⟩

/-- Claim C3 (amended): `disconnect()` ends with status `disconnected` and
attempt counter 0 and cancels the heartbeat interval timer, the stored
pong-wait timer and any pending reconnect timer; orphaned pong-wait timers
(leaked when `sendPing` runs while a pong-wait is still pending) survive it
untouched and can still fire `reconnect()`.  When no orphaned pong-wait
timer is live at the moment of the call, no event other than an explicit
`connect()`/`reconnect()` ever changes the state again — in particular no
reconnect fires. -/
theorem claim_C3_amended (cfg : WebSocketConfig) (s : Service) (es : List Ev) :
    (disconnect s).state.status = .disconnected ∧
    (disconnect s).state.reconnectAttempts = 0 ∧
    (disconnect s).heartbeatTimer = false ∧
    (disconnect s).pongStored = false ∧
    (disconnect s).reconnectTimer = none ∧
    (disconnect s).pongOrphans = s.pongOrphans ∧
    (s.pongOrphans = 0 → (∀ e ∈ es, e.isConnectRequest = false) →
      run cfg (disconnect s) es = disconnect s) :=
  ⟨disconnect_status s, disconnect_attempts s, disconnect_heartbeatTimer s,
   disconnect_pongStored s, disconnect_reconnectTimer s, disconnect_pongOrphans s,
   fun horph => run_disconnect_eq cfg s horph es⟩

/-- Witness for the amended C3: disconnecting a live connected service with
no orphaned timer and then letting a close, a reconnect-timer expiry, a
heartbeat tick, a pong timeout and an orphan expiry happen changes nothing. -/
theorem claim_C3_witness :
    (disconnect connectedService).state.status = .disconnected ∧
    (disconnect connectedService).state.reconnectAttempts = 0 ∧
    (disconnect connectedService).heartbeatTimer = false ∧
    (disconnect connectedService).pongStored = false ∧
    (disconnect connectedService).reconnectTimer = none ∧
    (disconnect connectedService).pongOrphans = connectedService.pongOrphans ∧
    run DEFAULT_CONFIG (disconnect connectedService)
        [.sockClose 1006, .reconnectFire true true, .heartbeatTick,
         .pongTimeout true true, .pongOrphanFire true true] =
      disconnect connectedService := by
  have h := claim_C3_amended DEFAULT_CONFIG connectedService
    [.sockClose 1006, .reconnectFire true true, .heartbeatTick,
     .pongTimeout true true, .pongOrphanFire true true]
  exact ⟨h.1, h.2.1, h.2.2.1, h.2.2.2.1, h.2.2.2.2.1, h.2.2.2.2.2.1,
    h.2.2.2.2.2.2 (by decide) (by decide)⟩

/-- Counterexample to Claim C2 as stated: the state reached by connecting,
suffering an unexpected close (which schedules a reconnect timer), manually
reconnecting, and letting the stale timer fire after the new socket opened is
reachable, `connected`, and has `reconnectAttempts = 1`. -/
theorem claim_C2_counterexample :
    Reachable DEFAULT_CONFIG (run DEFAULT_CONFIG Service.initial staleTimerTrace) ∧
    (run DEFAULT_CONFIG Service.initial staleTimerTrace).state.status = .connected ∧
    (run DEFAULT_CONFIG Service.initial staleTimerTrace).state.reconnectAttempts = 1 :=
  ⟨reachable_run DEFAULT_CONFIG staleTimerTrace, by decide, by decide⟩

/-- Claim C2 (amended): in every reachable state, `status = connected` implies
`lastError` is absent; the `reconnectAttempts = 0` half of the stated
invariant does not hold (see the counterexample: a reconnect timer scheduled
before a manual reconnect can fire while connected and leave a non-zero
counter). -/
theorem claim_C2_amended (cfg : WebSocketConfig) (s : Service)
    (hs : Reachable cfg s) (hc : s.state.status = .connected) :
    s.state.lastError = none := by
  revert hc
  induction hs with
  | initial => intro hc; simp [Service.initial] at hc
  | @step s' e hr ih =>
    intro hc
    cases e with
    | connectCall t k =>
      simp only [step] at hc ⊢
      have h := connect_state_of_connected t k s' hc
      rw [h] at hc ⊢
      exact ih hc
    | disconnectCall =>
      simp only [step] at hc
      rw [disconnect_status] at hc
      exact WebSocketStatus.noConfusion hc
    | reconnectCall t k =>
      simp only [step] at hc
      have h := connect_state_of_connected t k (disconnect s') hc
      rw [h, disconnect_status] at hc
      exact WebSocketStatus.noConfusion hc
    | sockOpen now =>
      simp only [step] at hc ⊢
      by_cases hsock : s'.socket = some .CONNECTING
      · rw [if_pos hsock] at hc ⊢
        exact handleOpen_lastError cfg now _
      · rw [if_neg hsock] at hc ⊢
        exact ih hc
    | sockClose code =>
      simp only [step] at hc ⊢
      revert hc
      split
      · split
        · intro hc; exact ih hc
        · intro hc
          rw [handleClose_status] at hc
          exact WebSocketStatus.noConfusion hc
      · intro hc; exact ih hc
    | sockError =>
      simp only [step] at hc ⊢
      revert hc
      split
      · split
        · intro hc; exact ih hc
        · intro hc
          rw [handleError_status] at hc
          exact WebSocketStatus.noConfusion hc
      · intro hc; exact ih hc
    | sockMessage p =>
      simp only [step] at hc ⊢
      by_cases hsock : s'.socket = some .OPEN
      · rw [if_pos hsock, handleMessageConn_state] at hc ⊢
        exact ih hc
      · rw [if_neg hsock] at hc ⊢
        exact ih hc
    | reconnectFire t k =>
      simp only [step] at hc ⊢
      revert hc
      split
      · intro hc
        have h := connect_state_of_connected t k _ hc
        rw [h] at hc ⊢
        exact ih hc
      · intro hc; exact ih hc
    | heartbeatTick =>
      simp only [step] at hc ⊢
      by_cases hb : s'.heartbeatTimer = true
      · rw [if_pos hb, sendPing_state] at hc ⊢
        exact ih hc
      · rw [if_neg hb] at hc ⊢
        exact ih hc
    | pongTimeout t k =>
      simp only [step] at hc ⊢
      by_cases hpt : s'.pongStored = true
      · rw [if_pos hpt] at hc
        have h := connect_state_of_connected t k _ hc
        rw [h, disconnect_status] at hc
        exact WebSocketStatus.noConfusion hc
      · rw [if_neg hpt] at hc ⊢
        exact ih hc
    | pongOrphanFire t k =>
      simp only [step] at hc ⊢
      by_cases hpo : 0 < s'.pongOrphans
      · rw [if_pos hpo] at hc
        have h := connect_state_of_connected t k _ hc
        rw [h, disconnect_status] at hc
        exact WebSocketStatus.noConfusion hc
      · rw [if_neg hpo] at hc ⊢
        exact ih hc

/-- Witness for the amended C2 at the concrete connected state
`connectedService`. -/
theorem claim_C2_witness : connectedService.state.lastError = none :=
  claim_C2_amended DEFAULT_CONFIG connectedService
    (reachable_run DEFAULT_CONFIG [.connectCall true true, .sockOpen 0]) (by decide)

/-- Counterexample to Claim C9 as stated: when `new WebSocket(url)` throws
synchronously, the session does end in `error` with `lastError` recorded,
but nothing is handed to the reconnection policy: no reconnect was ever
scheduled and no reconnect timer is pending. -/
theorem claim_C9_counterexample :
    errorService.state.status = .error ∧
    errorService.state.lastError = some "Connection failed" ∧
    errorService.scheduledReconnects = 0 ∧
    errorService.reconnectTimer = none := by
  exact ⟨by decide, by decide, by decide, by decide⟩

/-- Claim C9 (amended): a synchronous socket-construction failure sets
`status = error` and records `lastError`, but schedules no retry and the
service stays frozen until the next caller-initiated call; errors and closes
of an already-constructed socket do reach the retry decision — `handleError`
records the error state and `handleClose` schedules a reconnect whenever the
policy approves. -/
theorem claim_C9_amended :
    (∀ s : Service, s.socket ≠ some .OPEN → s.socket ≠ some .CONNECTING →
      (connect true false s).state.status = .error ∧
      (connect true false s).state.lastError = some "Connection failed" ∧
      (connect true false s).reconnectTimer = s.reconnectTimer ∧
      (connect true false s).scheduledReconnects = s.scheduledReconnects) ∧
    (∀ (cfg : WebSocketConfig) (es : List Ev),
      (∀ e ∈ es, e.isCallerInitiated = false) →
        run cfg errorService es = errorService) ∧
    (∀ s : Service,
      (handleError s).state.status = .error ∧
      (handleError s).state.lastError = some "WebSocket error") ∧
    (∀ (cfg : WebSocketConfig) (code : Nat) (s : Service),
      cfg.reconnect.enabled = true → code ≠ 1000 → code ≠ 4001 → code ≠ 4003 →
      s.state.reconnectAttempts < cfg.reconnect.maxAttempts →
        (handleClose cfg code s).reconnectTimer = some s.state.reconnectAttempts ∧
        (handleClose cfg code s).scheduledReconnects = s.scheduledReconnects + 1) := by
  refine ⟨?_, ?_, ?_, ?_⟩
  · intro s hOpen hConn
    simp [connect, hOpen, hConn]
  · intro cfg es h
    exact run_inert_eq cfg errorService
      (by exact ⟨by decide, by decide, by decide, by decide, by decide⟩) es h
  · intro s
    exact ⟨rfl, rfl⟩
  · intro cfg code s h1 h2 h3 h4 h5
    cases s with
    | mk o st rt hb ps po sc =>
      simp [handleClose, clearTimers, stopHeartbeat, scheduleReconnect, h1, h2, h3, h4, h5]

/-- Witness for the amended C9. -/
theorem claim_C9_witness :
    ((connect true false Service.initial).state.status = .error ∧
     (connect true false Service.initial).state.lastError = some "Connection failed" ∧
     (connect true false Service.initial).reconnectTimer = Service.initial.reconnectTimer ∧
     (connect true false Service.initial).scheduledReconnects =
       Service.initial.scheduledReconnects) ∧
    run DEFAULT_CONFIG errorService [.sockClose 1006, .reconnectFire true true] =
      errorService ∧
    (handleError Service.initial).state.status = .error ∧
    (handleClose DEFAULT_CONFIG 1006 Service.initial).reconnectTimer = some 0 := by
  refine ⟨claim_C9_amended.1 Service.initial (by decide) (by decide),
          claim_C9_amended.2.1 DEFAULT_CONFIG _ (by decide),
          (claim_C9_amended.2.2.1 Service.initial).1, ?_⟩
  exact (claim_C9_amended.2.2.2 DEFAULT_CONFIG 1006 Service.initial rfl
    (by decide) (by decide) (by decide) (by decide)).1

/-- When no list entry shares the incoming entity's id, in-place replacement
changes nothing. -/
theorem replaceById_of_forall_ne {α : Type} (getId : α → String) (x : α) :
    ∀ l : List α, (∀ y ∈ l, ¬ getId y = getId x) → replaceById getId l x = l := by
  intro l
  induction l with
  | nil => intro _; rfl
  | cons a l ih =>
    intro h
    simp only [replaceById, List.map_cons] at ih ⊢
    rw [if_neg (h a (List.mem_cons_self a l)),
      ih fun y hy => h y (List.mem_cons_of_mem a hy)]

/-- On an id-unique list, writing the incoming entity over the first index
whose id matches (the `findIndex` / `newCalls[index] = call` pattern) is the
same as in-place replacement by id. -/
theorem set_findIdx?_eq_replaceById {α : Type} (getId : α → String) (x : α) :
    ∀ (l : List α) (i : Nat), (l.map getId).Nodup →
      l.findIdx? (fun y => getId y = getId x) = some i →
      l.set i x = replaceById getId l x := by
  intro l
  induction l with
  | nil => intro i _ hfi; simp at hfi
  | cons a l ih =>
    intro i hnd hfi
    rw [List.findIdx?_cons] at hfi
    rw [List.map_cons] at hnd
    by_cases ha : getId a = getId x
    · rw [if_pos (decide_eq_true ha)] at hfi
      injection hfi with hi
      subst hi
      have hne : ∀ y ∈ l, ¬ getId y = getId x := by
        intro y hy hyx
        have hmem : getId a ∈ l.map getId := by
          rw [ha, ← hyx]
          exact List.mem_map_of_mem getId hy
        exact (List.nodup_cons.mp hnd).1 hmem
      have hrepl := replaceById_of_forall_ne getId x l hne
      simp only [replaceById, List.map_cons] at hrepl ⊢
      rw [if_pos ha, List.set_cons_zero, hrepl]
    · rw [if_neg fun h => ha (of_decide_eq_true h)] at hfi
      rw [List.findIdx?_succ] at hfi
      obtain ⟨j, hj, hji⟩ := Option.map_eq_some'.mp hfi
      subst hji
      have hset := ih j (List.nodup_cons.mp hnd).2 hj
      simp only [replaceById, List.map_cons] at hset ⊢
      rw [if_neg ha, List.set_cons_succ, hset]

/-- Counterexample to Claim C5 as stated: an `order.created` event whose
order id is already cached is prepended as a duplicate instead of replacing
the matching entry in place. -/
theorem claim_C5_counterexample :
    (handleOrderUpdate ordersCacheFixture orderCreatedDup).list =
      some [{ id := "a", status := "confirmed" }, { id := "a", status := "pending" }] ∧
    (handleOrderUpdate ordersCacheFixture orderCreatedDup).list ≠
      some (replaceById Order.id [{ id := "a", status := "pending" }]
        orderCreatedDup.order) :=
  ⟨by decide, by decide⟩

/-- Claim C5 (amended): on a cached list with unique ids, call events and
`order.updated`/`order.cancelled` events follow the upsert rule — in-place
replacement when a match exists, prepend for `call.started` with no match,
no-op for the other types with no match — while `order.created` always
prepends the entity without checking for an existing match. -/
theorem claim_C5_amended :
    (∀ (cache : CallsCache) (l : List Call) (event : CallUpdateEvent),
      cache.list = some l → (l.map Call.id).Nodup →
        (l.any (fun c => c.id = event.call.id) = true →
          (handleCallUpdate cache event).list =
            some (replaceById Call.id l event.call)) ∧
        (l.any (fun c => c.id = event.call.id) = false → event.type = .started →
          (handleCallUpdate cache event).list = some (event.call :: l)) ∧
        (l.any (fun c => c.id = event.call.id) = false → event.type ≠ .started →
          (handleCallUpdate cache event).list = some l)) ∧
    (∀ (cache : OrdersCache) (l : List Order) (event : OrderUpdateEvent),
      cache.list = some l →
        (event.type = .created →
          (handleOrderUpdate cache event).list = some (event.order :: l)) ∧
        (event.type ≠ .created →
          (handleOrderUpdate cache event).list =
            some (replaceById Order.id l event.order)) ∧
        (event.type ≠ .created → l.any (fun o => o.id = event.order.id) = false →
          (handleOrderUpdate cache event).list = some l)) := by
  constructor
  · intro cache l event hl hnd
    obtain ⟨ty, call⟩ := event
    by_cases hmatch : l.any (fun c => c.id = call.id) = true
    · refine ⟨fun _ => ?_, fun hf _ => absurd hmatch (by simp [hf]),
        fun hf _ => absurd hmatch (by simp [hf])⟩
      have hsome : (l.findIdx? (fun c => c.id = call.id)).isSome = true := by
        rw [List.findIdx?_isSome]
        exact hmatch
      obtain ⟨i, hi⟩ := Option.isSome_iff_exists.mp hsome
      have hset := set_findIdx?_eq_replaceById Call.id call l i hnd hi
      cases ty with
      | started => simp only [handleCallUpdate, hl, hi, hset]
      | updated => simp only [handleCallUpdate, hl, hi, hset]
      | ended =>
        simp only [handleCallUpdate, hl, Option.map_some']
        rfl
    · have hfalse : l.any (fun c => c.id = call.id) = false := by
        simpa using hmatch
      have hnone : l.findIdx? (fun c => c.id = call.id) = none := by
        simp only [List.findIdx?_eq_none_iff]
        intro c hc
        simpa using List.any_eq_false.mp hfalse c hc
      have hne : ∀ y ∈ l, ¬ Call.id y = Call.id call := fun y hy => by
        simpa using List.any_eq_false.mp hfalse y hy
      have hrepl := replaceById_of_forall_ne Call.id call l hne
      simp only [replaceById] at hrepl
      refine ⟨fun ht => absurd ht (by simp [hfalse]), fun _ hty => ?_, fun _ hty => ?_⟩
      · subst hty
        simp only [handleCallUpdate, hl, hnone]
        simp
      · cases ty with
        | started => exact absurd rfl hty
        | updated =>
          simp only [handleCallUpdate, hl, hnone]
          simp
        | ended =>
          simp only [handleCallUpdate, hl, Option.map_some', hrepl]
  · intro cache l event hl
    obtain ⟨ty, order⟩ := event
    refine ⟨fun hty => ?_, fun hty => ?_, fun hty hfalse => ?_⟩
    · subst hty
      simp only [handleOrderUpdate, hl]
    · cases ty with
      | created => exact absurd rfl hty
      | updated =>
        simp only [handleOrderUpdate, hl, Option.map_some']
        rfl
      | cancelled =>
        simp only [handleOrderUpdate, hl, Option.map_some']
        rfl
    · have hne : ∀ y ∈ l, ¬ Order.id y = Order.id order := fun y hy => by
        simpa using List.any_eq_false.mp hfalse y hy
      have hrepl := replaceById_of_forall_ne Order.id order l hne
      simp only [replaceById] at hrepl
      cases ty with
      | created => exact absurd rfl hty
      | updated => simp only [handleOrderUpdate, hl, Option.map_some', hrepl]
      | cancelled => simp only [handleOrderUpdate, hl, Option.map_some', hrepl]

/-- Witness for the amended C5: the P7 list `[a, b]` under `call.updated` for
`a`, and an `order.created` prepend. -/
theorem claim_C5_witness :
    (handleCallUpdate callsCacheFixture callUpdatedA).list =
      some (replaceById Call.id
        [{ id := "a", status := "queued" }, { id := "b", status := "queued" }]
        callUpdatedA.call) ∧
    (handleOrderUpdate ordersCacheFixture orderCreatedDup).list =
      some (orderCreatedDup.order :: [{ id := "a", status := "pending" }]) :=
  ⟨(claim_C5_amended.1 callsCacheFixture _ callUpdatedA rfl (by decide)).1 (by decide),
   (claim_C5_amended.2 ordersCacheFixture _ orderCreatedDup rfl).1 rfl⟩

/-- Counterexample to Claim C6 as stated: an `order.created` event never
writes the single-order cache slot. -/
theorem claim_C6_counterexample :
    (handleOrderUpdate emptyOrdersCache orderCreatedDup).detail "a" = none ∧
    (handleOrderUpdate emptyOrdersCache orderCreatedDup).detail "a" ≠
      some orderCreatedDup.order :=
  ⟨rfl, by decide⟩

/-- Claim C6 (amended): every call event, and every
`order.updated`/`order.cancelled` event, writes the single-entity cache slot
for the event's entity id with the entity, whatever the list cache holds;
an `order.created` event leaves every single-order slot unchanged. -/
theorem claim_C6_amended :
    (∀ (cache : CallsCache) (event : CallUpdateEvent),
      (handleCallUpdate cache event).detail event.call.id = some event.call) ∧
    (∀ (cache : OrdersCache) (event : OrderUpdateEvent),
      (event.type ≠ .created →
        (handleOrderUpdate cache event).detail event.order.id = some event.order) ∧
      (event.type = .created →
        ∀ i, (handleOrderUpdate cache event).detail i = cache.detail i)) := by
  constructor
  · intro cache event
    obtain ⟨ty, call⟩ := event
    cases ty <;> simp [handleCallUpdate]
  · intro cache event
    obtain ⟨ty, order⟩ := event
    cases ty with
    | created => exact ⟨fun h => absurd rfl h, fun _ i => rfl⟩
    | updated =>
      refine ⟨fun _ => ?_, fun h => OrderEventType.noConfusion h⟩
      simp [handleOrderUpdate]
    | cancelled =>
      refine ⟨fun _ => ?_, fun h => OrderEventType.noConfusion h⟩
      simp [handleOrderUpdate]

/-- Witness for the amended C6 at concrete caches and events. -/
theorem claim_C6_witness :
    (handleCallUpdate callsCacheFixture callUpdatedA).detail "a" =
      some callUpdatedA.call ∧
    (handleOrderUpdate ordersCacheFixture orderUpdatedA).detail "a" =
      some orderUpdatedA.order ∧
    (handleOrderUpdate emptyOrdersCache orderCreatedDup).detail "b" =
      emptyOrdersCache.detail "b" :=
  ⟨claim_C6_amended.1 callsCacheFixture callUpdatedA,
   (claim_C6_amended.2 ordersCacheFixture orderUpdatedA).1 (by decide),
   (claim_C6_amended.2 emptyOrdersCache orderCreatedDup).2 rfl "b"⟩

end WS
